import Mathlib

/-!
Shallow embedding of `src/backend/app.py` (ReAlice-Inc/rag-app).

The program is a FastAPI backend with one process-wide mutable state
(`session_state`, a session id plus a query-engine cache), a builder
`setup_llama_index`, and two handlers `upload_file` and `query`.
External effects (file writes, document loading, vector-index building,
LLM query execution) are modelled by an environment record `Ext` of
fallible functions; the handlers are translated as pure functions from
an explicit state to an outcome record that carries the new state, the
HTTP-level response, and ghost observations (number of builder calls,
the path passed to `open`) needed to state the claims.

Python exception semantics of the two `try/except Exception` blocks are
translated explicitly: `fastapi.HTTPException` is a subclass of
`Exception`, so an `HTTPException` raised inside the `try` body is
caught by the handler's own `except Exception as e` and re-raised as
`HTTPException(status_code=500, detail=str(e))`.
-/

namespace RagApp

/-- A document as returned by `SimpleDirectoryReader.load_data`. -/
structure Document where
  text : String
deriving DecidableEq

/-- The engine produced by `setup_llama_index`: the index contents plus the
configuration set by `as_query_engine` / `update_prompts` in the source. -/
structure QueryEngine where
  docs : List Document
  llm_model : String
  embed_model_name : String
  rerank_model : String
  streaming : Bool
  node_postprocessors : List String
  prompts : List (String × String)
deriving DecidableEq

/-- The process-wide `session_state` dict: `{"id": str(uuid4()), "file_cache": {}}`. -/
structure SessionState where
  id : String
  file_cache : List (String × QueryEngine)
deriving DecidableEq

/-- The pydantic `QueryRequest` model. -/
structure QueryRequest where
  prompt : String
  file_key : String
deriving DecidableEq

/-- The multipart upload received by `upload_file` (filename and raw bytes). -/
structure UploadFile where
  filename : String
  content : List Nat
deriving DecidableEq

/-- What the framework sends back for one request: a 200 JSON object (a list
of string key/value pairs) or an HTTP error with status and detail. -/
inductive Response where
  | success (body : List (String × String)) : Response
  | error (status : Nat) (detail : String) : Response
deriving DecidableEq

/-- Python exceptions relevant here: `fastapi.HTTPException` (carrying a
status code and a detail) and any other exception carrying its message. -/
inductive Exn where
  | http (status : Nat) (detail : String) : Exn
  | err (msg : String) : Exn
deriving DecidableEq

/-- Python `str(e)`: starlette defines `HTTPException.__str__` as
`f"{status_code}: {detail}"`; for plain exceptions `str(e)` is the message. -/
def Exn.str : Exn → String
  | .http status detail => toString status ++ ": " ++ detail
  | .err msg => msg

/-- Environment of external operations delegated by the source: file write,
`SimpleDirectoryReader(...).load_data`, `VectorStoreIndex.from_documents`
(its remote embedding calls), the default prompt dict of `as_query_engine`,
and `query_engine.query`. Each fallible one returns the raised exception's
message on failure. -/
structure Ext where
  write_file : String → List Nat → Except String Unit
  load_data : String → Except String (List Document)
  from_documents : List Document → Except String Unit
  default_prompts : List (String × String)
  run_query : QueryEngine → String → Except String String

/-- Lookup in a Python dict modelled as an association list (`dict.get`). -/
def lookupAssoc {α : Type} : List (String × α) → String → Option α
  | [], _ => none
  | (k', v) :: rest, k => if k' = k then some v else lookupAssoc rest k

/-- Python dict assignment `d[k] = v`: replaces the binding in place if the
key is present (insertion order is preserved), appends otherwise. -/
def insertAssoc {α : Type} : List (String × α) → String → α → List (String × α)
  | [], k, v => [(k, v)]
  | (k', v') :: rest, k, v =>
      if k' = k then (k, v) :: rest else (k', v') :: insertAssoc rest k v

/-- `os.path.join(a, b)` on posix, for the two-argument call in the source:
`b` if `b` is absolute, else `a` joined to `b` with a separator. -/
def os_path_join (a b : String) : String :=
  if b.data.head? = some (Char.ofNat 47) then b
  else if a.data.getLast? = some (Char.ofNat 47) then a ++ b
  else a ++ "/" ++ b

/-- Split a character list at every occurrence of the character `c`. -/
def splitOnChar (c : Char) : List Char → List (List Char)
  | [] => [[]]
  | x :: xs =>
    match splitOnChar c xs with
    | [] => [[]]
    | g :: gs => if x = c then [] :: g :: gs else (x :: g) :: gs

/-- The `/`-separated components of a path. -/
def pathComponents (p : String) : List String :=
  (splitOnChar (Char.ofNat 47) p.data).map fun l => ⟨l⟩

/-- One step of posix path resolution over a list of components. -/
def normStep (acc : List String) (c : String) : List String :=
  if c = "" ∨ c = "." then acc
  else if c = ".." then acc.dropLast
  else acc ++ [c]

/-- Resolve `.` and `..` in an absolute posix path (what the filesystem does
with the path handed to `open`). -/
def normalizePath (p : String) : String :=
  "/" ++ String.intercalate "/" ((pathComponents p).foldl normStep [])

/-- Whether the path `p` resolves to a location inside directory `dir`. -/
def withinDir (dir p : String) : Bool :=
  (dir ++ "/").data.isPrefixOf (normalizePath p).data

/-- The literal `qa_prompt_tmpl_str` of the source. -/
def qa_prompt_tmpl_str : String :=
  "Context information is below.\n" ++
  "---------------------\n" ++
  "{context_str}\n" ++
  "---------------------\n" ++
  "Given the context information above I want you to think step by step to answer the query in a crisp manner, in case you don\x27t know the answer say \x27I don\x27t know!\x27.\n" ++
  "Query: {query_str}\n" ++
  "Answer: "

/-- The key of the prompt overridden by `update_prompts` in the source. -/
def text_qa_template_key : String := "response_synthesizer:text_qa_template"

/-- `setup_llama_index(file_path, file_key)`: loads the documents from the
directory, builds the vector index (remote embedding calls can fail),
wraps it in a streaming query engine with the Cohere reranker attached,
overrides the text-QA prompt, and — as its last statement before
returning — writes the engine into `session_state['file_cache']`.
Any exception in the library calls propagates to the caller; the state is
returned unchanged in that case because the cache write comes last. -/
def setup_llama_index (ext : Ext) (st : SessionState) (file_path : String)
    (file_key : String) : Except String (SessionState × QueryEngine) :=
  match ext.load_data file_path with
  | .error m => .error m
  | .ok docs =>
    match ext.from_documents docs with
    | .error m => .error m
    | .ok _ =>
      let query_engine : QueryEngine :=
        { docs := docs
          llm_model := "command-r-plus"
          embed_model_name := "embed-english-v3.0"
          rerank_model := "rerank-english-v3.0"
          streaming := true
          node_postprocessors := ["CohereRerank"]
          prompts := ext.default_prompts }
      let query_engine2 : QueryEngine :=
        { query_engine with
          prompts := insertAssoc query_engine.prompts text_qa_template_key qa_prompt_tmpl_str }
      Except.ok
        ({ st with file_cache := insertAssoc st.file_cache file_key query_engine2 },
         query_engine2)

/-- Outcome of one `POST /upload/` request: resulting state, response, the
number of `setup_llama_index` invocations performed, and the path handed
to `open(file_path, "wb")`. -/
structure UploadOutcome where
  state : SessionState
  response : Response
  builderCalls : Nat
  file_path : String
deriving DecidableEq

/-- The `upload_file` handler. `temp_dir` is the fresh directory produced by
`tempfile.TemporaryDirectory()` for this request. The body writes the
uploaded bytes to `os.path.join(temp_dir, file.filename)`, computes
`file_key = f"{session_state['id']}-{file.filename}"`, calls the builder
only on a cache miss (then assigns the returned engine to the cache a
second time), and returns `{"id": session_state['id']}`. Any exception is
caught and re-raised as `HTTPException(500, str(e))`. -/
def upload_file (ext : Ext) (temp_dir : String) (st : SessionState)
    (file : UploadFile) : UploadOutcome :=
  let file_path := os_path_join temp_dir file.filename
  match ext.write_file file_path file.content with
  | .error m =>
      { state := st
        response := .error 500 (Exn.str (.err m))
        builderCalls := 0
        file_path := file_path }
  | .ok _ =>
    let file_key := st.id ++ "-" ++ file.filename
    match lookupAssoc st.file_cache file_key with
    | some _ =>
        { state := st
          response := .success [("id", st.id)]
          builderCalls := 0
          file_path := file_path }
    | none =>
      match setup_llama_index ext st temp_dir file_key with
      | .error m =>
          { state := st
            response := .error 500 (Exn.str (.err m))
            builderCalls := 1
            file_path := file_path }
      | .ok (st2, query_engine) =>
          let st3 : SessionState :=
            { st2 with file_cache := insertAssoc st2.file_cache file_key query_engine }
          { state := st3
            response := .success [("id", st3.id)]
            builderCalls := 1
            file_path := file_path }

/-- Outcome of one `POST /query/` request, with a ghost count of how many
times `query_engine.query` was invoked. -/
structure QueryOutcome where
  state : SessionState
  response : Response
  queryCalls : Nat
deriving DecidableEq

/-- The `query` handler. The body looks the key up with `.get`; on a miss it
raises `HTTPException(404, "Query engine not found.")` — but that raise
happens inside the `try`, so the handler's own `except Exception as e`
catches it and re-raises `HTTPException(500, str(e))`. On a hit it runs
the engine synchronously; any exception there is likewise re-raised as a
500 with `str(e)` as detail. The handler never assigns to
`session_state`, so the state component is the input state. -/
def query_handler (ext : Ext) (st : SessionState) (req : QueryRequest) :
    QueryOutcome :=
  { state := st
    response :=
      match lookupAssoc st.file_cache req.file_key with
      | none => Response.error 500 (Exn.str (Exn.http 404 "Query engine not found."))
      | some query_engine =>
        match ext.run_query query_engine req.prompt with
        | .error m => Response.error 500 (Exn.str (Exn.err m))
        | .ok r => Response.success [("message", r)]
    queryCalls :=
      match lookupAssoc st.file_cache req.file_key with
      | none => 0
      | some _ => 1 }

/-- The engine value that a successful `setup_llama_index` run produces from
loaded documents `docs` and the engine's default prompt dict: streaming,
Cohere models, the reranker attached, and the text-QA prompt overridden
with `qa_prompt_tmpl_str`. A "fully constructed" engine in the sense of the
spec's invariant. -/
def builtEngine (docs : List Document) (defaults : List (String × String)) :
    QueryEngine :=
  { docs := docs
    llm_model := "command-r-plus"
    embed_model_name := "embed-english-v3.0"
    rerank_model := "rerank-english-v3.0"
    streaming := true
    node_postprocessors := ["CohereRerank"]
    prompts := insertAssoc defaults text_qa_template_key qa_prompt_tmpl_str }

/-- An engine is built when it is exactly the output of a successfully
completed Index Builder invocation on some documents and defaults. -/
def IsBuilt (e : QueryEngine) : Prop :=
  ∃ docs defaults, e = builtEngine docs defaults

/-- Reachable process states: the process starts with a fresh id `i` and an
empty cache, and evolves only through the two HTTP handlers, each run
against an arbitrary external environment and request. -/
inductive Reachable (i : String) : SessionState → Prop where
  | init : Reachable i { id := i, file_cache := [] }
  | upload (ext : Ext) (temp_dir : String) (file : UploadFile)
      (st : SessionState) :
      Reachable i st → Reachable i (upload_file ext temp_dir st file).state
  | queryStep (ext : Ext) (req : QueryRequest) (st : SessionState) :
      Reachable i st → Reachable i (query_handler ext st req).state

/-! Concrete sample values used by the witness theorems. -/

/-- A sample loaded document. -/
def doc0 : Document := { text := "hello" }

/-- A sample default prompt dict of `as_query_engine`. -/
def promptDefaults : List (String × String) :=
  [(text_qa_template_key, "default template")]

/-- A sample environment in which every external call succeeds. -/
def extOk : Ext :=
  { write_file := fun _ _ => .ok ()
    load_data := fun _ => .ok [doc0]
    from_documents := fun _ => .ok ()
    default_prompts := promptDefaults
    run_query := fun _ _ => .ok "An answer." }

/-- Environment in which the temporary-file write raises. -/
def extWriteFail : Ext := { extOk with write_file := fun _ _ => .error "disk full" }

/-- Environment in which document loading raises. -/
def extLoadFail : Ext := { extOk with load_data := fun _ => .error "bad pdf" }

/-- Environment in which vector-index construction raises. -/
def extIndexFail : Ext := { extOk with from_documents := fun _ => .error "api quota exceeded" }

/-- Environment in which LLM query execution raises. -/
def extQueryFail : Ext := { extOk with run_query := fun _ _ => .error "cohere auth error" }

/-- A fresh process state with session id "S". -/
def st0 : SessionState := { id := "S", file_cache := [] }

/-- A sample uploaded file. -/
def file0 : UploadFile := { filename := "report.pdf", content := [37, 80, 68, 70] }

/-- The engine `extOk` builds from `file0`. -/
def engine0 : QueryEngine := builtEngine [doc0] promptDefaults

/-- The state `setup_llama_index extOk st0 _ "S-report.pdf"` returns (after
the builder's own cache write, before the upload handler's second one). -/
def stBuilt0 : SessionState :=
  { id := "S", file_cache := [("S-report.pdf", engine0)] }

/-! Helper lemmas about the association-list dict operations. -/

/-- Assigning then reading the same key yields the assigned value. -/
theorem lookupAssoc_insertAssoc_self {α : Type} (c : List (String × α))
    (k : String) (v : α) : lookupAssoc (insertAssoc c k v) k = some v := by
  induction c with
  | nil => simp [insertAssoc, lookupAssoc]
  | cons hd tl ih =>
    obtain ⟨k', v'⟩ := hd
    by_cases h : k' = k
    · simp [insertAssoc, lookupAssoc, h]
    · simp [insertAssoc, lookupAssoc, h, ih]

/-- Every value readable after an assignment is either the assigned value or
was already readable before. -/
theorem lookupAssoc_insertAssoc_cases {α : Type} (c : List (String × α))
    (k k' : String) (v e : α)
    (h : lookupAssoc (insertAssoc c k v) k' = some e) :
    e = v ∨ lookupAssoc c k' = some e := by
  induction c with
  | nil =>
    simp only [insertAssoc, lookupAssoc] at h
    by_cases hk : k = k'
    · rw [if_pos hk] at h
      exact Or.inl (Option.some.inj h).symm
    · rw [if_neg hk] at h
      exact absurd h (by simp [lookupAssoc])
  | cons hd tl ih =>
    obtain ⟨k₀, v₀⟩ := hd
    by_cases h₀ : k₀ = k
    · subst h₀
      rw [show insertAssoc ((k₀, v₀) :: tl) k₀ v = (k₀, v) :: tl from by
        simp [insertAssoc]] at h
      by_cases hk : k₀ = k'
      · subst hk
        rw [show lookupAssoc ((k₀, v) :: tl) k₀ = some v from by
          simp [lookupAssoc]] at h
        exact Or.inl (Option.some.inj h).symm
      · refine Or.inr ?_
        have h' : lookupAssoc tl k' = some e := by
          simpa [lookupAssoc, hk] using h
        simpa [lookupAssoc, hk] using h'
    · rw [show insertAssoc ((k₀, v₀) :: tl) k v = (k₀, v₀) :: insertAssoc tl k v from by
        simp [insertAssoc, h₀]] at h
      by_cases hk : k₀ = k'
      · refine Or.inr ?_
        have h' : some v₀ = some e := by
          simpa [lookupAssoc, hk] using h
        simpa [lookupAssoc, hk] using h'
      · have h' : lookupAssoc (insertAssoc tl k v) k' = some e := by
          simpa [lookupAssoc, hk] using h
        rcases ih h' with hv | hold
        · exact Or.inl hv
        · exact Or.inr (by simpa [lookupAssoc, hk] using hold)

/-- Re-assigning the same value to the same key is a no-op. -/
theorem insertAssoc_idem {α : Type} (c : List (String × α)) (k : String)
    (v : α) : insertAssoc (insertAssoc c k v) k v = insertAssoc c k v := by
  induction c with
  | nil => simp [insertAssoc]
  | cons hd tl ih =>
    obtain ⟨k', v'⟩ := hd
    by_cases h : k' = k
    · simp [insertAssoc, h]
    · simp [insertAssoc, h, ih]

/-! Helper lemmas about `setup_llama_index` and `upload_file`. -/

/-- Inversion of a successful builder run: the documents were loaded from the
directory, the returned engine is the fully built one, and the returned
state is the input state with exactly one new cache binding for the key. -/
theorem setup_llama_index_ok (ext : Ext) (st st2 : SessionState)
    (dir key : String) (qe : QueryEngine)
    (h : setup_llama_index ext st dir key = .ok (st2, qe)) :
    ∃ docs, ext.load_data dir = .ok docs ∧ ext.from_documents docs = .ok () ∧
      qe = builtEngine docs ext.default_prompts ∧
      st2 = { st with file_cache := insertAssoc st.file_cache key qe } := by
  cases hl : ext.load_data dir with
  | error m => simp [setup_llama_index, hl] at h
  | ok docs =>
    cases hf : ext.from_documents docs with
    | error m => simp [setup_llama_index, hl, hf] at h
    | ok u =>
      cases u
      simp only [setup_llama_index, hl, hf] at h
      injection h with h
      injection h with hst hqe
      refine ⟨docs, rfl, hf, hqe.symm, ?_⟩
      rw [← hst, ← hqe]

/-- A failed builder run leaves no trace: the exception propagates before the
cache write, so the caller sees the error message only. -/
theorem setup_llama_index_error (ext : Ext) (st : SessionState)
    (dir key m : String) (docs : List Document) :
    (ext.load_data dir = .error m → setup_llama_index ext st dir key = .error m) ∧
    (ext.load_data dir = .ok docs → ext.from_documents docs = .error m →
      setup_llama_index ext st dir key = .error m) := by
  constructor
  · intro hl
    simp [setup_llama_index, hl]
  · intro hl hf
    simp [setup_llama_index, hl, hf]

/-- `upload_file` when the temporary-file write raises: 500 with the verbatim
message, no builder call, state untouched. -/
theorem upload_file_write_error (ext : Ext) (t : String) (st : SessionState)
    (file : UploadFile) (m : String)
    (hw : ext.write_file (os_path_join t file.filename) file.content = .error m) :
    upload_file ext t st file =
      { state := st, response := .error 500 m, builderCalls := 0,
        file_path := os_path_join t file.filename } := by
  simp [upload_file, hw, Exn.str]

/-- `upload_file` on a cache hit: the builder is skipped, the state is
untouched, and the session id is returned. -/
theorem upload_file_cache_hit (ext : Ext) (t : String) (st : SessionState)
    (file : UploadFile) (qe : QueryEngine)
    (hw : ext.write_file (os_path_join t file.filename) file.content = .ok ())
    (hc : lookupAssoc st.file_cache (st.id ++ "-" ++ file.filename) = some qe) :
    upload_file ext t st file =
      { state := st, response := .success [("id", st.id)], builderCalls := 0,
        file_path := os_path_join t file.filename } := by
  simp [upload_file, hw, hc]

/-- `upload_file` on a cache miss whose builder run raises: 500 with the
verbatim message, builder invoked once, state untouched. -/
theorem upload_file_miss_error (ext : Ext) (t : String) (st : SessionState)
    (file : UploadFile) (m : String)
    (hw : ext.write_file (os_path_join t file.filename) file.content = .ok ())
    (hc : lookupAssoc st.file_cache (st.id ++ "-" ++ file.filename) = none)
    (hs : setup_llama_index ext st t (st.id ++ "-" ++ file.filename) = .error m) :
    upload_file ext t st file =
      { state := st, response := .error 500 m, builderCalls := 1,
        file_path := os_path_join t file.filename } := by
  simp [upload_file, hw, hc, hs, Exn.str]

/-- `upload_file` on a cache miss whose builder run succeeds: the handler
assigns the returned engine under the key a second time and returns the
session id. -/
theorem upload_file_miss_ok (ext : Ext) (t : String) (st st2 : SessionState)
    (file : UploadFile) (qe : QueryEngine)
    (hw : ext.write_file (os_path_join t file.filename) file.content = .ok ())
    (hc : lookupAssoc st.file_cache (st.id ++ "-" ++ file.filename) = none)
    (hs : setup_llama_index ext st t (st.id ++ "-" ++ file.filename) = .ok (st2, qe)) :
    upload_file ext t st file =
      { state :=
          { st2 with
            file_cache := insertAssoc st2.file_cache (st.id ++ "-" ++ file.filename) qe },
        response := .success [("id", st2.id)], builderCalls := 1,
        file_path := os_path_join t file.filename } := by
  simp [upload_file, hw, hc, hs]

/-- The upload handler never changes the session id. -/
theorem upload_file_id (ext : Ext) (t : String) (st : SessionState)
    (file : UploadFile) : (upload_file ext t st file).state.id = st.id := by
  cases hw : ext.write_file (os_path_join t file.filename) file.content with
  | error m => rw [upload_file_write_error ext t st file m hw]
  | ok u =>
    cases u
    cases hc : lookupAssoc st.file_cache (st.id ++ "-" ++ file.filename) with
    | some qe => rw [upload_file_cache_hit ext t st file qe hw hc]
    | none =>
      cases hs : setup_llama_index ext st t (st.id ++ "-" ++ file.filename) with
      | error m => rw [upload_file_miss_error ext t st file m hw hc hs]
      | ok pr =>
        obtain ⟨st2, qe⟩ := pr
        rw [upload_file_miss_ok ext t st st2 file qe hw hc hs]
        obtain ⟨docs, -, -, -, hst2⟩ := setup_llama_index_ok ext st st2 t _ qe hs
        rw [hst2]

/-- The path handed to `open` is always the join of the temporary directory
with the caller-supplied filename, in every branch. -/
theorem upload_file_path (ext : Ext) (t : String) (st : SessionState)
    (file : UploadFile) :
    (upload_file ext t st file).file_path = os_path_join t file.filename := by
  cases hw : ext.write_file (os_path_join t file.filename) file.content with
  | error m => rw [upload_file_write_error ext t st file m hw]
  | ok u =>
    cases u
    cases hc : lookupAssoc st.file_cache (st.id ++ "-" ++ file.filename) with
    | some qe => rw [upload_file_cache_hit ext t st file qe hw hc]
    | none =>
      cases hs : setup_llama_index ext st t (st.id ++ "-" ++ file.filename) with
      | error m => rw [upload_file_miss_error ext t st file m hw hc hs]
      | ok pr =>
        obtain ⟨st2, qe⟩ := pr
        rw [upload_file_miss_ok ext t st st2 file qe hw hc hs]

/-- Inversion of a successful upload: the body is `{"id": session_id}` and
the engine is afterwards cached under `{session_id}-{filename}`. -/
theorem upload_file_success (ext : Ext) (t : String) (st : SessionState)
    (file : UploadFile) (body : List (String × String))
    (h : (upload_file ext t st file).response = .success body) :
    body = [("id", st.id)] ∧
    ∃ qe, lookupAssoc (upload_file ext t st file).state.file_cache
        (st.id ++ "-" ++ file.filename) = some qe := by
  cases hw : ext.write_file (os_path_join t file.filename) file.content with
  | error m =>
    rw [upload_file_write_error ext t st file m hw] at h
    exact absurd h (by simp)
  | ok u =>
    cases u
    cases hc : lookupAssoc st.file_cache (st.id ++ "-" ++ file.filename) with
    | some qe =>
      rw [upload_file_cache_hit ext t st file qe hw hc] at h ⊢
      refine ⟨?_, qe, hc⟩
      have h' := h
      injection h' with hb
      exact hb.symm
    | none =>
      cases hs : setup_llama_index ext st t (st.id ++ "-" ++ file.filename) with
      | error m =>
        rw [upload_file_miss_error ext t st file m hw hc hs] at h
        exact absurd h (by simp)
      | ok pr =>
        obtain ⟨st2, qe⟩ := pr
        obtain ⟨docs, -, -, -, hst2⟩ := setup_llama_index_ok ext st st2 t _ qe hs
        rw [upload_file_miss_ok ext t st st2 file qe hw hc hs] at h ⊢
        constructor
        · have h' := h
          injection h' with hb
          rw [← hb, hst2]
        · exact ⟨qe, lookupAssoc_insertAssoc_self _ _ _⟩

/-- Every reachable state carries the session id fixed at process start. -/
theorem reachable_id (i : String) (st : SessionState) (h : Reachable i st) :
    st.id = i := by
  induction h with
  | init => rfl
  | upload ext t file st' hst ih => rw [upload_file_id]; exact ih
  | queryStep ext req st' hst ih => exact ih

/-! Claim theorems. -/

/-- C1: evaluating the query handler at the failing input — key
"S-missing.pdf", never uploaded — shows it responds HTTP 500 (the 404
`HTTPException` raised in the `try` body is caught by the handler's own
`except Exception` and re-raised as `HTTPException(500, str(e))`), not a
404 response with detail "Query engine not found." as the claim states. -/
theorem query_missing_key_responds_500 :
    (query_handler extOk st0
        { prompt := "What is the total?", file_key := "S-missing.pdf" }).response
      = Response.error 500 "404: Query engine not found."
    ∧ (query_handler extOk st0
        { prompt := "What is the total?", file_key := "S-missing.pdf" }).response
      ≠ Response.error 404 "Query engine not found." := by
  refine ⟨by decide, by decide⟩

/-- C2: a second upload of the same file under the same session returns the
same session identifier, performs no second builder invocation, and leaves
the state (hence the existing cache entry) exactly as it was. -/
theorem second_upload_same_id_no_rebuild (ext1 ext2 : Ext) (t1 t2 : String)
    (st : SessionState) (file : UploadFile) (body : List (String × String))
    (h1 : (upload_file ext1 t1 st file).response = .success body)
    (h2 : ext2.write_file (os_path_join t2 file.filename) file.content = .ok ()) :
    (upload_file ext2 t2 (upload_file ext1 t1 st file).state file).response
        = .success [("id", st.id)]
    ∧ (upload_file ext2 t2 (upload_file ext1 t1 st file).state file).builderCalls = 0
    ∧ (upload_file ext2 t2 (upload_file ext1 t1 st file).state file).state
        = (upload_file ext1 t1 st file).state := by
  obtain ⟨hbody, qe, hqe⟩ := upload_file_success ext1 t1 st file body h1
  have hid : (upload_file ext1 t1 st file).state.id = st.id :=
    upload_file_id ext1 t1 st file
  have hc : lookupAssoc (upload_file ext1 t1 st file).state.file_cache
      ((upload_file ext1 t1 st file).state.id ++ "-" ++ file.filename) = some qe := by
    rw [hid]; exact hqe
  rw [upload_file_cache_hit ext2 t2 (upload_file ext1 t1 st file).state file qe h2 hc]
  exact ⟨by rw [hid], rfl, rfl⟩

/-- C2 witness: uploading `file0` twice in session "S" against the
all-succeeding environment. -/
theorem second_upload_same_id_no_rebuild_witness :
    (upload_file extOk "/tmp/b" (upload_file extOk "/tmp/a" st0 file0).state file0).response
        = .success [("id", "S")]
    ∧ (upload_file extOk "/tmp/b" (upload_file extOk "/tmp/a" st0 file0).state file0).builderCalls = 0
    ∧ (upload_file extOk "/tmp/b" (upload_file extOk "/tmp/a" st0 file0).state file0).state
        = (upload_file extOk "/tmp/a" st0 file0).state :=
  second_upload_same_id_no_rebuild extOk extOk "/tmp/a" "/tmp/b" st0 file0
    [("id", "S")] rfl rfl

/-- C3: in every reachable state, every engine present in the cache is the
output of a successfully completed `setup_llama_index` run — a fully
constructed engine; no partially built entry is observable, since the
cache writes happen only on and after a successful builder return. -/
theorem cache_entries_fully_built (i : String) (st : SessionState)
    (h : Reachable i st) :
    ∀ k e, lookupAssoc st.file_cache k = some e → IsBuilt e := by
  induction h with
  | init => intro k e hl; simp [lookupAssoc] at hl
  | queryStep ext req st' hst ih => exact ih
  | upload ext t file st' hst ih =>
    intro k e hl
    cases hw : ext.write_file (os_path_join t file.filename) file.content with
    | error m =>
      rw [upload_file_write_error ext t st' file m hw] at hl
      exact ih k e hl
    | ok u =>
      cases u
      cases hc : lookupAssoc st'.file_cache (st'.id ++ "-" ++ file.filename) with
      | some qe =>
        rw [upload_file_cache_hit ext t st' file qe hw hc] at hl
        exact ih k e hl
      | none =>
        cases hs : setup_llama_index ext st' t (st'.id ++ "-" ++ file.filename) with
        | error m =>
          rw [upload_file_miss_error ext t st' file m hw hc hs] at hl
          exact ih k e hl
        | ok pr =>
          obtain ⟨st2, qe⟩ := pr
          obtain ⟨docs, -, -, hqe, hst2⟩ :=
            setup_llama_index_ok ext st' st2 t _ qe hs
          rw [upload_file_miss_ok ext t st' st2 file qe hw hc hs] at hl
          have hl' : lookupAssoc
              (insertAssoc st2.file_cache (st'.id ++ "-" ++ file.filename) qe) k
              = some e := hl
          rcases lookupAssoc_insertAssoc_cases _ _ _ _ _ hl' with he | hold
          · exact ⟨docs, ext.default_prompts, by rw [he, hqe]⟩
          · rw [hst2] at hold
            have hold' : lookupAssoc
                (insertAssoc st'.file_cache (st'.id ++ "-" ++ file.filename) qe) k
                = some e := hold
            rcases lookupAssoc_insertAssoc_cases _ _ _ _ _ hold' with he2 | hold2
            · exact ⟨docs, ext.default_prompts, by rw [he2, hqe]⟩
            · exact ih k e hold2

/-- C3 witness: after one successful upload from the fresh state, the cached
entry is a fully built engine. -/
theorem cache_entries_fully_built_witness : IsBuilt engine0 :=
  cache_entries_fully_built "S" (upload_file extOk "/tmp/a" st0 file0).state
    (Reachable.upload extOk "/tmp/a" file0 st0 Reachable.init) "S-report.pdf"
    engine0 rfl

/-- C4: every exception raised during file handling (the temporary-file
write), index construction (document loading or vector-index building), or
query execution is reported by the corresponding handler as HTTP 500 with
the exception's message verbatim as detail; the failing operation is not
retried (the builder runs at most once, the engine query exactly once). -/
theorem exception_yields_500_verbatim (ext : Ext) (t : String)
    (st : SessionState) (file : UploadFile) (req : QueryRequest) (m : String) :
    (ext.write_file (os_path_join t file.filename) file.content = .error m →
      (upload_file ext t st file).response = .error 500 m
      ∧ (upload_file ext t st file).builderCalls = 0)
    ∧ (ext.write_file (os_path_join t file.filename) file.content = .ok () →
       lookupAssoc st.file_cache (st.id ++ "-" ++ file.filename) = none →
       ext.load_data t = .error m →
         (upload_file ext t st file).response = .error 500 m
         ∧ (upload_file ext t st file).builderCalls = 1)
    ∧ (∀ docs, ext.write_file (os_path_join t file.filename) file.content = .ok () →
       lookupAssoc st.file_cache (st.id ++ "-" ++ file.filename) = none →
       ext.load_data t = .ok docs → ext.from_documents docs = .error m →
         (upload_file ext t st file).response = .error 500 m
         ∧ (upload_file ext t st file).builderCalls = 1)
    ∧ (∀ qe, lookupAssoc st.file_cache req.file_key = some qe →
       ext.run_query qe req.prompt = .error m →
         (query_handler ext st req).response = .error 500 m
         ∧ (query_handler ext st req).queryCalls = 1) := by
  refine ⟨?_, ?_, ?_, ?_⟩
  · intro hw
    rw [upload_file_write_error ext t st file m hw]
    exact ⟨rfl, rfl⟩
  · intro hw hc hl
    have hs := (setup_llama_index_error ext st t
      (st.id ++ "-" ++ file.filename) m []).1 hl
    rw [upload_file_miss_error ext t st file m hw hc hs]
    exact ⟨rfl, rfl⟩
  · intro docs hw hc hl hf
    have hs := (setup_llama_index_error ext st t
      (st.id ++ "-" ++ file.filename) m docs).2 hl hf
    rw [upload_file_miss_error ext t st file m hw hc hs]
    exact ⟨rfl, rfl⟩
  · intro qe hqe hr
    constructor
    · simp [query_handler, hqe, hr, Exn.str]
    · simp [query_handler, hqe]

/-- C4 witness: a failing write, a failing loader, a failing index build and
a failing LLM call each surface as a 500 carrying the verbatim message. -/
theorem exception_yields_500_verbatim_witness :
    (upload_file extWriteFail "/tmp/a" st0 file0).response = .error 500 "disk full"
    ∧ (upload_file extLoadFail "/tmp/a" st0 file0).response = .error 500 "bad pdf"
    ∧ (upload_file extIndexFail "/tmp/a" st0 file0).response
        = .error 500 "api quota exceeded"
    ∧ (query_handler extQueryFail stBuilt0
        { prompt := "p", file_key := "S-report.pdf" }).response
        = .error 500 "cohere auth error" := by
  refine ⟨?_, ?_, ?_, ?_⟩
  · exact ((exception_yields_500_verbatim extWriteFail "/tmp/a" st0 file0
      ⟨"p", "k"⟩ "disk full").1 rfl).1
  · exact ((exception_yields_500_verbatim extLoadFail "/tmp/a" st0 file0
      ⟨"p", "k"⟩ "bad pdf").2.1 rfl rfl rfl).1
  · exact ((exception_yields_500_verbatim extIndexFail "/tmp/a" st0 file0
      ⟨"p", "k"⟩ "api quota exceeded").2.2.1 [doc0] rfl rfl rfl rfl).1
  · exact ((exception_yields_500_verbatim extQueryFail "/tmp/a" stBuilt0 file0
      ⟨"p", "S-report.pdf"⟩ "cohere auth error").2.2.2 engine0 rfl rfl).1

/-- C5: after any successful upload, the engine sits in the cache under
exactly `{session_id}-{filename}`, so a query with that very key (built
independently from the session id, a hyphen and the filename) finds it and
returns the LLM answer. -/
theorem upload_then_query_finds_engine (ext1 ext2 : Ext) (t : String)
    (st : SessionState) (file : UploadFile) (body : List (String × String))
    (p r : String)
    (h1 : (upload_file ext1 t st file).response = .success body)
    (hq : ∀ qe, ext2.run_query qe p = .ok r) :
    (query_handler ext2 (upload_file ext1 t st file).state
        { prompt := p, file_key := st.id ++ "-" ++ file.filename }).response
      = .success [("message", r)] := by
  obtain ⟨-, qe, hqe⟩ := upload_file_success ext1 t st file body h1
  simp [query_handler, hqe, hq qe]

/-- C5 witness: upload `report.pdf` in session "S", then query with the key
"S-report.pdf". -/
theorem upload_then_query_finds_engine_witness :
    (query_handler extOk (upload_file extOk "/tmp/a" st0 file0).state
        { prompt := "What is the total?", file_key := "S-report.pdf" }).response
      = .success [("message", "An answer.")] :=
  upload_then_query_finds_engine extOk extOk "/tmp/a" st0 file0 [("id", "S")]
    "What is the total?" "An answer." rfl (fun _ => rfl)

/-- C6: a successful builder run returns an engine whose text-QA prompt has
been overridden with the fixed step-by-step template, configured for
streaming with the reranker attached, and has written that same engine
into the cache under the given key. -/
theorem setup_overrides_prompt_and_caches (ext : Ext) (st st2 : SessionState)
    (dir key : String) (qe : QueryEngine)
    (h : setup_llama_index ext st dir key = .ok (st2, qe)) :
    lookupAssoc qe.prompts text_qa_template_key = some qa_prompt_tmpl_str
    ∧ qe.streaming = true
    ∧ qe.node_postprocessors = ["CohereRerank"]
    ∧ lookupAssoc st2.file_cache key = some qe := by
  obtain ⟨docs, -, -, hqe, hst2⟩ := setup_llama_index_ok ext st st2 dir key qe h
  subst hqe
  refine ⟨?_, rfl, rfl, ?_⟩
  · exact lookupAssoc_insertAssoc_self _ _ _
  · rw [hst2]
    exact lookupAssoc_insertAssoc_self _ _ _

/-- C6 witness: the concrete engine built from `file0`. -/
theorem setup_overrides_prompt_and_caches_witness :
    lookupAssoc engine0.prompts text_qa_template_key = some qa_prompt_tmpl_str
    ∧ engine0.streaming = true
    ∧ engine0.node_postprocessors = ["CohereRerank"]
    ∧ lookupAssoc stBuilt0.file_cache "S-report.pdf" = some engine0 :=
  setup_overrides_prompt_and_caches extOk st0 stBuilt0 "/tmp/a" "S-report.pdf"
    engine0 rfl

/-- C7: the session identifier is fixed at process start: every reachable
state carries it unchanged, and every successful upload returns exactly
`{"id": <that identifier>}`. -/
theorem session_id_generated_once (i : String) (st : SessionState) (ext : Ext)
    (t : String) (file : UploadFile) (body : List (String × String))
    (h : Reachable i st)
    (hs : (upload_file ext t st file).response = .success body) :
    st.id = i ∧ body = [("id", i)]
    ∧ (upload_file ext t st file).state.id = i := by
  have hid := reachable_id i st h
  obtain ⟨hbody, -⟩ := upload_file_success ext t st file body hs
  exact ⟨hid, by rw [hbody, hid], by rw [upload_file_id, hid]⟩

/-- C7 witness: the fresh "S" process returns `{"id": "S"}` on upload. -/
theorem session_id_generated_once_witness :
    st0.id = "S" ∧ ([("id", "S")] : List (String × String)) = [("id", "S")]
    ∧ (upload_file extOk "/tmp/a" st0 file0).state.id = "S" :=
  session_id_generated_once "S" st0 extOk "/tmp/a" file0 [("id", "S")]
    Reachable.init rfl

/-- C8: the caller-supplied filename is joined to the temporary directory
without sanitization: with filename "../evil.pdf" the handler opens a path
that resolves to "/tmp/evil.pdf", outside the request's temporary
directory "/tmp/tmpreq". -/
theorem upload_path_escapes_temp_dir (ext : Ext) (st : SessionState)
    (content : List Nat) :
    normalizePath (upload_file ext "/tmp/tmpreq" st
        { filename := "../evil.pdf", content := content }).file_path
      = "/tmp/evil.pdf"
    ∧ withinDir "/tmp/tmpreq" (upload_file ext "/tmp/tmpreq" st
        { filename := "../evil.pdf", content := content }).file_path = false := by
  constructor
  · rw [upload_file_path]
    rfl
  · rw [upload_file_path]
    rfl

/-- C9: the query handler never modifies the shared state: the session
identifier and every cache entry are identical before and after it runs,
on every outcome. -/
theorem query_handler_preserves_shared_state (ext : Ext) (st : SessionState)
    (req : QueryRequest) :
    (query_handler ext st req).state = st
    ∧ (query_handler ext st req).state.id = st.id
    ∧ ∀ k, lookupAssoc (query_handler ext st req).state.file_cache k
        = lookupAssoc st.file_cache k :=
  ⟨rfl, rfl, fun _ => rfl⟩

/-- C10: on a cache-miss upload the key is assigned twice — once inside the
builder and once by the handler — with the same engine value, so the
second assignment is a no-op: the final state equals the state right after
the builder's own write, which holds the single new binding. -/
theorem second_cache_assignment_idempotent (ext : Ext) (t : String)
    (st st2 : SessionState) (file : UploadFile) (qe : QueryEngine)
    (hw : ext.write_file (os_path_join t file.filename) file.content = .ok ())
    (hc : lookupAssoc st.file_cache (st.id ++ "-" ++ file.filename) = none)
    (hs : setup_llama_index ext st t (st.id ++ "-" ++ file.filename)
        = .ok (st2, qe)) :
    (upload_file ext t st file).state = st2
    ∧ st2.file_cache
        = insertAssoc st.file_cache (st.id ++ "-" ++ file.filename) qe := by
  obtain ⟨docs, -, -, -, hst2⟩ := setup_llama_index_ok ext st st2 t _ qe hs
  rw [upload_file_miss_ok ext t st st2 file qe hw hc hs]
  constructor
  · rw [hst2]
    simp [insertAssoc_idem]
  · rw [hst2]

/-- C10 witness: the concrete miss upload of `file0` from the fresh state. -/
theorem second_cache_assignment_idempotent_witness :
    (upload_file extOk "/tmp/a" st0 file0).state = stBuilt0
    ∧ stBuilt0.file_cache = insertAssoc st0.file_cache "S-report.pdf" engine0 :=
  second_cache_assignment_idempotent extOk "/tmp/a" st0 stBuilt0 file0 engine0
    rfl rfl rfl

end RagApp
